import Mathlib

/-
  Verification of the game-session server in server/internal/game
  (server.go and simple_server.go of github.com/czh0526/game).

  Shallow embedding conventions:
  * Go maps (string-keyed) are association lists with the usual
    lookup/insert/erase operations; key sets stay duplicate-free because
    inserts replace existing keys.
  * Go pointers to `Player` and `GameRoom` are modelled by their unique
    string keys, dereferenced through the heaps `ServerState.players` and
    `ServerState.rooms`; mutations through a pointer become updates of the
    corresponding heap entry.
  * `float64` coordinates are modelled as `Int`: the server only copies
    coordinate values (from messages and spawn tables) and compares nothing,
    so no floating-point arithmetic is ever performed.
  * `time.Time` fields (timestamps, LastSeen, CreatedAt) are dropped: no
    claim and no control-flow decision depends on them.
  * A `conn.WriteJSON` call is recorded as a `Send` value; handlers return
    the updated state together with the list of writes they performed.
  * The DID collaborator (`didService.ResolveDID`) and the VC collaborator
    (`vcService.IssueCredential` / `IssueAchievementCredential`) are oracle
    parameters; every invocation of the VC collaborator is additionally
    recorded as a `VcCall`.
-/

namespace Game

/-- Association-list lookup, modelling Go map indexing `m[k]`. -/
def lookupKey {α : Type} (k : String) : List (String × α) → Option α
  | [] => none
  | (k1, v) :: rest => if k1 = k then some v else lookupKey k rest

/-- Association-list insert/replace, modelling Go map assignment `m[k] = v`. -/
def insertKey {α : Type} (k : String) (v : α) : List (String × α) → List (String × α)
  | [] => [(k, v)]
  | (k1, v1) :: rest => if k1 = k then (k, v) :: rest else (k1, v1) :: insertKey k v rest

/-- Association-list removal, modelling Go `delete(m, k)`. -/
def eraseKey {α : Type} (k : String) : List (String × α) → List (String × α)
  | [] => []
  | (k1, v1) :: rest => if k1 = k then eraseKey k rest else (k1, v1) :: eraseKey k rest

/-- Membership-key insertion for a room's player map (the values are the
players themselves, recovered from the player heap by their id). -/
def addMember (pid : String) (ms : List String) : List String :=
  if pid ∈ ms then ms else ms ++ [pid]

/-- Membership-key removal for a room's player map. -/
def removeMember (pid : String) (ms : List String) : List String :=
  ms.filter (fun q => q ≠ pid)

/-- Replaces the first element satisfying `p`, modelling Go's find-first-then
mutate-through-pointer loop over a slice of pointers. -/
def updateFirst {α : Type} (p : α → Bool) (f : α → α) : List α → List α
  | [] => []
  | a :: rest => if p a then f a :: rest else a :: updateFirst p f rest

/-- Dynamic JSON-shaped value, modelling the untyped `interface{}` payloads
decoded from the wire (`msg.Data` and its fields). Numbers are `Int` because
the server never computes with them. -/
inductive JVal where
  | str (s : String)
  | num (x : Int)
  | boolean (b : Bool)
  | obj (fields : List (String × JVal))
  | null

/-- Type assertion `v.(map[string]interface{})`. -/
def JVal.asObj : JVal → Option (List (String × JVal))
  | .obj fields => some fields
  | _ => none

/-- Field probe `m[k].(string)`. -/
def getStr (fields : List (String × JVal)) (k : String) : Option String :=
  match lookupKey k fields with
  | some (.str s) => some s
  | _ => none

/-- Field probe `m[k].(float64)`. -/
def getNum (fields : List (String × JVal)) (k : String) : Option Int :=
  match lookupKey k fields with
  | some (.num x) => some x
  | _ => none

/-- Position from server.go. -/
structure Position where
  x : Int
  y : Int
deriving DecidableEq, Repr

/-- Objective from server.go (Properties dropped: never read by the server). -/
structure Objective where
  id : String
  description : String
  type : String
  target : String
  current : Int
  required : Int
  completed : Bool
deriving DecidableEq, Repr

/-- Value carried by a Reward (`interface{}` in Go; the server stores strings
for credential rewards and numbers for experience rewards). -/
inductive RVal where
  | str (s : String)
  | num (x : Int)
deriving DecidableEq, Repr

/-- Reward from server.go. `properties` models the string-valued entries of
the Go `Properties` map that processReward reads (`credentialType`). -/
structure Reward where
  type : String
  value : RVal
  properties : List (String × String)
deriving DecidableEq, Repr

/-- Task from server.go (Properties dropped: never read by the server). -/
structure Task where
  id : String
  name : String
  description : String
  type : String
  status : String
  objectives : List Objective
  rewards : List Reward
deriving DecidableEq, Repr

/-- MapObject from server.go. -/
structure MapObject where
  id : String
  type : String
  position : Position
  width : Int
  height : Int
deriving DecidableEq, Repr

/-- GameMap from server.go. -/
structure GameMap where
  width : Int
  height : Int
  tiles : List (List Int)
  objects : List MapObject
  spawnPoints : List Position
deriving DecidableEq, Repr

/-- GameEvent from server.go. -/
structure GameEvent where
  id : String
  type : String
  playerId : String
deriving DecidableEq, Repr

/-- GameState from server.go (StartTime/EndTime/Properties dropped: never
read by the server). -/
structure GameState where
  status : String
  map : GameMap
  tasks : List Task
  events : List GameEvent
deriving DecidableEq, Repr

/-- Connection handle; stands for a `*websocket.Conn`. -/
abbrev ConnId := Nat

/-- Player from server.go. `connection` is `none` when the Go field is nil;
`room` holds the id of the pointed-to room (`none` for a nil pointer). -/
structure Player where
  id : String
  did : String
  nickname : String
  position : Position
  level : Int
  health : Int
  maxHealth : Int
  status : String
  connection : Option ConnId
  room : Option String
deriving DecidableEq, Repr

/-- GameRoom from server.go. `players` holds the keys of the Go membership
map `map[string]*Player`; each key dereferences through the player heap. -/
structure GameRoom where
  id : String
  name : String
  gameId : String
  maxPlayers : Nat
  players : List String
  gameState : GameState
deriving DecidableEq, Repr

/-- The mutable server state: the room registry `s.rooms` and the player
table `s.players` (both Go maps guarded by roomMutex). -/
structure ServerState where
  rooms : List (String × GameRoom)
  players : List (String × Player)
deriving DecidableEq, Repr

/-- Credential record returned by the VC collaborator; opaque to the core. -/
structure Credential where
  credId : String
deriving DecidableEq, Repr

/-- Record of one invocation of the VC collaborator. -/
structure VcCall where
  did : String
  credType : String
  achievement : String
deriving DecidableEq, Repr

/-- Outbound message payloads: one constructor per construction site of a
`map[string]interface{}` data value in the two server files. -/
inductive MsgData where
  | authOk (playerId : String) (did : String) (nickname : String)
  | joinOk (room : GameRoom)
  | leaveOk
  | playerUpdate (action : String) (player : Player)
  | movePos (position : Position)
  | chatBody (message : String) (nickname : String)
  | taskUpdate (task : Task) (action : String)
  | credentialBody (credential : Credential) (message : String)
  | errorBody (message : String)
deriving DecidableEq, Repr

/-- Message from server.go (the wire envelope); the server stamps the
timestamp, which is elided here. Empty strings model omitted fields. -/
structure Message where
  type : String
  playerId : String
  roomId : String
  data : MsgData
deriving DecidableEq, Repr

def MsgTypeJoinRoom : String := "join_room"
def MsgTypeLeaveRoom : String := "leave_room"
def MsgTypePlayerMove : String := "player_move"
def MsgTypePlayerAction : String := "player_action"
def MsgTypeTaskUpdate : String := "task_update"
def MsgTypeGameState : String := "game_state"
def MsgTypePlayerUpdate : String := "player_update"
def MsgTypeChat : String := "chat"
def MsgTypeError : String := "error"
def MsgTypeAuth : String := "auth"
def MsgTypeCredential : String := "credential"

/-- One `WriteJSON` call: `pid` is the player whose connection was written
(bookkeeping only; empty when the write used a bare connection handle),
`conn` the connection written to. -/
structure Send where
  pid : String
  conn : ConnId
  msg : Message
deriving DecidableEq, Repr

/-- sendError from both servers: writes an error envelope to a connection. -/
def sendError (conn : ConnId) (message : String) : List Send :=
  [⟨"", conn, { type := MsgTypeError, playerId := "", roomId := "", data := .errorBody message }⟩]

/-- sendErrorToPlayer from both servers: guards on a non-nil connection. -/
def sendErrorToPlayer (player : Player) (message : String) : List Send :=
  match player.connection with
  | some c => sendError c message
  | none => []

/-- Direct `player.Connection.WriteJSON(msg)` where the player is read from
the heap. The source does not guard against a nil connection at these call
sites (it would panic); in the flows the dispatcher allows, the connection
is present. -/
def writeToPlayer (s : ServerState) (pid : String) (msg : Message) : List Send :=
  match lookupKey pid s.players with
  | some p =>
    match p.connection with
    | some c => [⟨pid, c, msg⟩]
    | none => []
  | none => []

/-- Direct `player.Connection.WriteJSON(msg)` through a player value. -/
def writeToPlayerP (player : Player) (msg : Message) : List Send :=
  match player.connection with
  | some c => [⟨player.id, c, msg⟩]
  | none => []

/-- Shared default map literal from createDefaultGameState (identical in
server.go and simple_server.go): 800x600, 60 nil tile rows, one spawn-point
object, three spawn points. -/
def defaultGameMap : GameMap :=
  { width := 800
    height := 600
    tiles := List.replicate 60 []
    objects := [{ id := "spawn1", type := "spawn_point", position := ⟨100, 100⟩, width := 0, height := 0 }]
    spawnPoints := [⟨100, 100⟩, ⟨200, 200⟩, ⟨300, 300⟩] }

/-- The tutorial task pre-populated by simple_server.go's
createDefaultGameState. -/
def welcomeTask : Task :=
  { id := "welcome_task"
    name := "Welcome to the Game"
    description := "Complete your first steps in the game"
    type := "tutorial"
    status := "available"
    objectives := [{ id := "move_around", description := "Move using WASD keys", type := "movement",
                     target := "any", current := 0, required := 1, completed := false }]
    rewards := [{ type := "credential", value := .str "WelcomeCredential", properties := [] }] }

namespace SimpleSrv

/-- createDefaultGameState from simple_server.go: waiting status, default
map, the welcome_task pre-populated, empty events. -/
def createDefaultGameState : GameState :=
  { status := "waiting", map := defaultGameMap, tasks := [welcomeTask], events := [] }

end SimpleSrv

namespace Srv

/-- createDefaultGameState from server.go: waiting status, default map, an
empty task list, empty events. -/
def createDefaultGameState : GameState :=
  { status := "waiting", map := defaultGameMap, tasks := [], events := [] }

end Srv

/-- leaveRoom (identical in server.go and simple_server.go): no-op when the
player has no room; otherwise removes the player from the room's membership
map, clears the player's room pointer, and deletes the room from the
registry when its membership dropped to zero. When the player's room
pointer dangles (no registry entry — unreachable in states the server
produces), Go would mutate the unregistered room object: only the player's
own fields change observably, which is what this branch records. -/
def leaveRoom (s : ServerState) (pid : String) : ServerState :=
  match lookupKey pid s.players with
  | none => s
  | some player =>
    match player.room with
    | none => s
    | some rid =>
      match lookupKey rid s.rooms with
      | none => { s with players := insertKey pid { player with room := none } s.players }
      | some room =>
        let room1 := { room with players := removeMember pid room.players }
        let player1 := { player with room := none }
        let s1 : ServerState :=
          { rooms := insertKey rid room1 s.rooms, players := insertKey pid player1 s.players }
        if room1.players.length = 0 then { s1 with rooms := eraseKey rid s1.rooms } else s1

/-- Result of joinRoom. `stuck` marks the case in which the source
deadlocks: joinRoom holds `room.mutex` and calls leaveRoom on the same
(non-reentrant) mutex whenever the joining player's current room is the
room being joined. -/
inductive JoinResult where
  | ok (s : ServerState)
  | err (s : ServerState) (msg : String)
  | stuck
deriving DecidableEq, Repr

/-- joinRoom (identical in server.go and simple_server.go): fails with
"room is full" at capacity, first leaves the player's previous room, adds
the player to the membership map, sets the player's room pointer, and
assigns the spawn position indexed by the post-insertion membership count
modulo the spawn-list length. The fallback `stuck` arms are unreachable:
callers pass a registered room and player, and after leaving a different
room the joined room is still registered. -/
def joinRoom (s : ServerState) (pid : String) (roomID : String) : JoinResult :=
  match lookupKey roomID s.rooms, lookupKey pid s.players with
  | some room, some player =>
    if room.maxPlayers ≤ room.players.length then .err s "room is full"
    else if player.room = some roomID then .stuck
    else
      let s1 := if player.room.isSome then leaveRoom s pid else s
      match lookupKey roomID s1.rooms, lookupKey pid s1.players with
      | some room1, some player1 =>
        let room2 := { room1 with players := addMember pid room1.players }
        let player2 := { player1 with room := some roomID }
        let spawns := room2.gameState.map.spawnPoints
        let player3 :=
          if 0 < spawns.length then
            { player2 with position := spawns.getD (room2.players.length % spawns.length) ⟨0, 0⟩ }
          else player2
        .ok { rooms := insertKey roomID room2 s1.rooms, players := insertKey pid player3 s1.players }
      | _, _ => .stuck
  | _, _ => .stuck

/-- broadcastToRoom (identical in server.go and simple_server.go): writes
the message to every member of the room's membership map whose id differs
from the excluded id and whose connection is non-nil. -/
def broadcastToRoom (s : ServerState) (roomID : String) (msg : Message) (excludePlayerID : String) :
    List Send :=
  match lookupKey roomID s.rooms with
  | none => []
  | some room =>
    room.players.filterMap fun q =>
      if q ≠ excludePlayerID then
        match lookupKey q s.players with
        | some p =>
          match p.connection with
          | some c => some ⟨q, c, msg⟩
          | none => none
        | none => none
      else none

/-- handlePlayerMove (identical in server.go and simple_server.go): requires
a room, silently returns on malformed data, writes the new position into the
player, and broadcasts the move to the room excluding the sender. -/
def handlePlayerMove (s : ServerState) (pid : String) (data : JVal) : ServerState × List Send :=
  match lookupKey pid s.players with
  | none => (s, [])
  | some player =>
    match player.room with
    | none => (s, [])
    | some roomID =>
      match data.asObj with
      | none => (s, [])
      | some fields =>
        match getNum fields "x", getNum fields "y" with
        | some x, some y =>
          let player1 := { player with position := ⟨x, y⟩ }
          let s1 := { s with players := insertKey pid player1 s.players }
          (s1, broadcastToRoom s1 roomID
            { type := MsgTypePlayerMove, playerId := pid, roomId := roomID,
              data := .movePos player1.position } pid)
        | _, _ => (s, [])

/-- handleChat (identical in server.go and simple_server.go): requires a
room, silently returns on malformed data, and broadcasts the chat text and
the sender's nickname to the whole room (empty exclusion). -/
def handleChat (s : ServerState) (pid : String) (data : JVal) : ServerState × List Send :=
  match lookupKey pid s.players with
  | none => (s, [])
  | some player =>
    match player.room with
    | none => (s, [])
    | some roomID =>
      match data.asObj with
      | none => (s, [])
      | some fields =>
        match getStr fields "message" with
        | none => (s, [])
        | some message =>
          (s, broadcastToRoom s roomID
            { type := MsgTypeChat, playerId := pid, roomId := roomID,
              data := .chatBody message player.nickname } "")

/-- handleDisconnect (identical in server.go and simple_server.go): marks
the player offline, clears the connection, and — when the player has a room
— broadcasts a "disconnected" player_update to the other members. The
room's membership map is not touched. -/
def handleDisconnect (s : ServerState) (pid : String) : ServerState × List Send :=
  match lookupKey pid s.players with
  | none => (s, [])
  | some player =>
    let player1 := { player with status := "offline", connection := none }
    let s1 := { s with players := insertKey pid player1 s.players }
    match player1.room with
    | none => (s1, [])
    | some roomID =>
      (s1, broadcastToRoom s1 roomID
        { type := MsgTypePlayerUpdate, playerId := pid, roomId := roomID,
          data := .playerUpdate "disconnected" player1 } pid)

/-- handleLeaveRoom (identical in server.go and simple_server.go): no-op
without a room; otherwise leaves, replies with a leave-success envelope on
the player's connection, and broadcasts a "left" player_update to the rest
of the old room (which is gone from the registry if it emptied, matching
the empty fan-out over the emptied Go room object). -/
def handleLeaveRoom (s : ServerState) (pid : String) : ServerState × List Send :=
  match lookupKey pid s.players with
  | none => (s, [])
  | some player =>
    match player.room with
    | none => (s, [])
    | some roomID =>
      let s1 := leaveRoom s pid
      let direct := writeToPlayer s1 pid
        { type := MsgTypeLeaveRoom, playerId := pid, roomId := "", data := .leaveOk }
      let bc :=
        match lookupKey pid s1.players with
        | some playerNow =>
          broadcastToRoom s1 roomID
            { type := MsgTypePlayerUpdate, playerId := pid, roomId := roomID,
              data := .playerUpdate "left" playerNow } pid
        | none => []
      (s1, direct ++ bc)

/-- Finds an existing player by DID, modelling the linear scan over
`s.players` in getOrCreatePlayer. -/
def findByDID (playerDID : String) (ps : List (String × Player)) : Option Player :=
  (ps.map Prod.snd).find? (fun p => p.did = playerDID)

/-- getOrCreatePlayer (identical in server.go and simple_server.go): reuses
the player registered under the same DID, otherwise creates one. The Go
nickname slice `playerDID[len(playerDID)-8:]` panics when the DID is
shorter than 8 bytes; the panic is modelled as `none`. `freshId` stands for
`uuid.New().String()`; DIDs are treated as ASCII so Go byte indexing
matches character indexing. -/
def getOrCreatePlayer (s : ServerState) (playerDID : String) (freshId : String) :
    Option (ServerState × Player) :=
  match findByDID playerDID s.players with
  | some player => some (s, player)
  | none =>
    if 8 ≤ playerDID.length then
      let player : Player :=
        { id := freshId, did := playerDID,
          nickname := "Player_" ++ playerDID.drop (playerDID.length - 8),
          position := ⟨0, 0⟩, level := 1, health := 100, maxHealth := 100,
          status := "online", connection := none, room := none }
      some ({ s with players := insertKey freshId player s.players }, player)
    else none

/-- handleAuth (identical in server.go and simple_server.go): decodes the
DID from the payload, resolves it against the DID collaborator (`resolve`),
gets or creates the player, marks it online on this connection, and replies
with an auth-success envelope. The outer `none` is the getOrCreatePlayer
panic propagating; otherwise the middle component is the player the
dispatcher stores (`none` on auth failure). -/
def handleAuth (s : ServerState) (conn : ConnId) (data : JVal)
    (resolve : String → Except String String) (freshId : String) :
    Option (ServerState × Option Player × List Send) :=
  match data.asObj with
  | none => some (s, none, sendError conn "Invalid auth data")
  | some fields =>
    match getStr fields "did" with
    | none => some (s, none, sendError conn "Missing player DID")
    | some playerDID =>
      match resolve playerDID with
      | .error e => some (s, none, sendError conn ("Invalid DID: " ++ e))
      | .ok _ =>
        match getOrCreatePlayer s playerDID freshId with
        | none => none
        | some (s1, player) =>
          let player1 := { player with connection := some conn, status := "online" }
          let s2 := { s1 with players := insertKey player.id player1 s1.players }
          (some (s2, some player1,
            [⟨player1.id, conn,
              { type := MsgTypeAuth, playerId := "", roomId := "",
                data := .authOk player1.id player1.did player1.nickname }⟩]))

namespace SimpleSrv

/-- getOrCreateRoom from simple_server.go: returns the registered room, or
registers a fresh one (capacity 10, empty membership, fresh default game
state). -/
def getOrCreateRoom (s : ServerState) (roomID : String) (gameID : String) :
    ServerState × GameRoom :=
  match lookupKey roomID s.rooms with
  | some room => (s, room)
  | none =>
    let room : GameRoom :=
      { id := roomID, name := "Room " ++ roomID, gameId := gameID, maxPlayers := 10,
        players := [], gameState := createDefaultGameState }
    ({ s with rooms := insertKey roomID room s.rooms }, room)

/-- handleJoinRoom from simple_server.go: error envelope on a malformed
payload, defaults the room id, gets or creates the room, joins, and on
success replies with the join envelope (carrying the room and its game
state) and broadcasts a "joined" player_update excluding the joiner. A
failed join is reported to the requester only; the `stuck` outcome of
joinRoom never returns in the source, modelled as no observable effect
beyond the room creation. -/
def handleJoinRoom (s : ServerState) (pid : String) (data : JVal) : ServerState × List Send :=
  match lookupKey pid s.players with
  | none => (s, [])
  | some player =>
    match data.asObj with
    | none => (s, sendErrorToPlayer player "Invalid join room data")
    | some fields =>
      let roomID := (getStr fields "roomId").getD "default"
      let (s1, _) := getOrCreateRoom s roomID "default"
      match joinRoom s1 pid roomID with
      | .err s2 e => (s2, sendErrorToPlayer player ("Failed to join room: " ++ e))
      | .stuck => (s1, [])
      | .ok s2 =>
        match lookupKey roomID s2.rooms, lookupKey pid s2.players with
        | some roomNow, some playerNow =>
          let direct := writeToPlayer s2 pid
            { type := MsgTypeJoinRoom, playerId := pid, roomId := roomID, data := .joinOk roomNow }
          let bc := broadcastToRoom s2 roomID
            { type := MsgTypePlayerUpdate, playerId := pid, roomId := roomID,
              data := .playerUpdate "joined" playerNow } pid
          (s2, direct ++ bc)
        | _, _ => (s2, [])

/-- handleCompleteTask from simple_server.go: silently returns when the
task id is missing, unknown, or the task is not `active`; otherwise marks
the task completed, calls IssueAchievementCredential (`issue` is its
outcome; the call is recorded), and — only when issuance succeeded — sends
the credential envelope to the player and broadcasts a task_update to the
whole room. On issuance error the handler returns after logging: no
envelope and no broadcast, and the completed status stays. -/
def handleCompleteTask (s : ServerState) (pid : String) (actionData : List (String × JVal))
    (issue : Except String Credential) : ServerState × List Send × List VcCall :=
  match lookupKey pid s.players with
  | none => (s, [], [])
  | some player =>
    match player.room with
    | none => (s, [], [])
    | some roomID =>
      match lookupKey roomID s.rooms with
      | none => (s, [], [])
      | some room =>
        match getStr actionData "taskId" with
        | none => (s, [], [])
        | some taskID =>
          match room.gameState.tasks.find? (fun t => t.id = taskID) with
          | none => (s, [], [])
          | some task =>
            if task.status ≠ "active" then (s, [], [])
            else
              let task1 := { task with status := "completed" }
              let tasks1 := updateFirst (fun t => t.id = taskID)
                (fun t => { t with status := "completed" }) room.gameState.tasks
              let room1 := { room with gameState := { room.gameState with tasks := tasks1 } }
              let s1 := { s with rooms := insertKey roomID room1 s.rooms }
              let call : VcCall := ⟨player.did, "AchievementCredential", task1.name⟩
              match issue with
              | .error _ => (s1, [], [call])
              | .ok cred =>
                let credSend := writeToPlayerP player
                  { type := MsgTypeCredential, playerId := pid, roomId := "",
                    data := .credentialBody cred ("获得凭证: " ++ task1.name) }
                let bc := broadcastToRoom s1 roomID
                  { type := MsgTypeTaskUpdate, playerId := pid, roomId := roomID,
                    data := .taskUpdate task1 "completed" } ""
                (s1, credSend ++ bc, [call])

/-- handlePlayerAction from simple_server.go: requires a room, silently
returns on malformed data, and routes "complete_task" to
handleCompleteTask; "interact" and unknown actions only log. -/
def handlePlayerAction (s : ServerState) (pid : String) (data : JVal)
    (issue : Except String Credential) : ServerState × List Send × List VcCall :=
  match lookupKey pid s.players with
  | none => (s, [], [])
  | some player =>
    match player.room with
    | none => (s, [], [])
    | some _ =>
      match data.asObj with
      | none => (s, [], [])
      | some fields =>
        match getStr fields "action" with
        | none => (s, [], [])
        | some action =>
          if action = "complete_task" then handleCompleteTask s pid fields issue
          else (s, [], [])

end SimpleSrv

namespace Srv

/-- getOrCreateRoom from server.go (differs from the simple variant only in
the default game state it embeds). -/
def getOrCreateRoom (s : ServerState) (roomID : String) (gameID : String) :
    ServerState × GameRoom :=
  match lookupKey roomID s.rooms with
  | some room => (s, room)
  | none =>
    let room : GameRoom :=
      { id := roomID, name := "Room " ++ roomID, gameId := gameID, maxPlayers := 10,
        players := [], gameState := createDefaultGameState }
    ({ s with rooms := insertKey roomID room s.rooms }, room)

/-- processReward from server.go: for a "credential" reward, reads the
credential type (default "AchievementCredential"), calls IssueCredential
(`issue` gives the collaborator's outcome per did and type; the call is
recorded), and sends the credential envelope to the player on success; on
error it only logs — no envelope. An "experience" reward only logs. -/
def processReward (player : Player) (reward : Reward) (task : Task)
    (issue : String → String → Except String Credential) : List Send × List VcCall :=
  if reward.type = "credential" then
    let credType := (lookupKey "credentialType" reward.properties).getD "AchievementCredential"
    let call : VcCall := ⟨player.did, credType, task.name⟩
    match issue player.did credType with
    | .error _ => ([], [call])
    | .ok cred =>
      (writeToPlayerP player
        { type := MsgTypeCredential, playerId := player.id, roomId := "",
          data := .credentialBody cred ("获得凭证: " ++ task.name) }, [call])
  else ([], [])

/-- handleCompleteTask from server.go: same lookup and `active` guard as the
simple variant; on valid completion marks the task completed, processes
every reward through processReward, then broadcasts a task_update to the
whole room — the broadcast is unconditional, so a failed issuance does not
suppress it. -/
def handleCompleteTask (s : ServerState) (pid : String) (actionData : List (String × JVal))
    (issue : String → String → Except String Credential) :
    ServerState × List Send × List VcCall :=
  match lookupKey pid s.players with
  | none => (s, [], [])
  | some player =>
    match player.room with
    | none => (s, [], [])
    | some roomID =>
      match lookupKey roomID s.rooms with
      | none => (s, [], [])
      | some room =>
        match getStr actionData "taskId" with
        | none => (s, [], [])
        | some taskID =>
          match room.gameState.tasks.find? (fun t => t.id = taskID) with
          | none => (s, [], [])
          | some task =>
            if task.status ≠ "active" then (s, [], [])
            else
              let task1 := { task with status := "completed" }
              let tasks1 := updateFirst (fun t => t.id = taskID)
                (fun t => { t with status := "completed" }) room.gameState.tasks
              let room1 := { room with gameState := { room.gameState with tasks := tasks1 } }
              let s1 := { s with rooms := insertKey roomID room1 s.rooms }
              let processed := task1.rewards.map (fun r => processReward player r task1 issue)
              let rewardSends := (processed.map Prod.fst).flatten
              let calls := (processed.map Prod.snd).flatten
              let bc := broadcastToRoom s1 roomID
                { type := MsgTypeTaskUpdate, playerId := pid, roomId := roomID,
                  data := .taskUpdate task1 "completed" } ""
              (s1, rewardSends ++ bc, calls)

/-- handlePlayerAction from server.go: identical routing to the simple
variant, delegating to server.go's handleCompleteTask. -/
def handlePlayerAction (s : ServerState) (pid : String) (data : JVal)
    (issue : String → String → Except String Credential) :
    ServerState × List Send × List VcCall :=
  match lookupKey pid s.players with
  | none => (s, [], [])
  | some player =>
    match player.room with
    | none => (s, [], [])
    | some _ =>
      match data.asObj with
      | none => (s, [], [])
      | some fields =>
        match getStr fields "action" with
        | none => (s, [], [])
        | some action =>
          if action = "complete_task" then handleCompleteTask s pid fields issue
          else (s, [], [])

end Srv

/-- State after an auth dispatch. When getOrCreatePlayer panics the worker
dies without producing a new state, so the pre-state (already reachable)
is kept. -/
def authState (s : ServerState) (conn : ConnId) (data : JVal)
    (resolve : String → Except String String) (freshId : String) : ServerState :=
  match handleAuth s conn data resolve freshId with
  | some (s1, _, _) => s1
  | none => s

/-- One dispatch of the per-connection loop of simple_server.go (arbitrary
sender, payload and collaborator outcomes), relating pre- and post-state.
This over-approximates the real traces: the dispatcher additionally
guarantees the sender was authenticated, so every invariant proved over
`Step` holds for the real server. -/
inductive Step : ServerState → ServerState → Prop where
  | auth (s : ServerState) (conn : ConnId) (data : JVal)
      (resolve : String → Except String String) (freshId : String) :
      Step s (authState s conn data resolve freshId)
  | joinR (s : ServerState) (pid : String) (data : JVal) :
      Step s (SimpleSrv.handleJoinRoom s pid data).1
  | leaveR (s : ServerState) (pid : String) :
      Step s (handleLeaveRoom s pid).1
  | move (s : ServerState) (pid : String) (data : JVal) :
      Step s (handlePlayerMove s pid data).1
  | act (s : ServerState) (pid : String) (data : JVal) (issue : Except String Credential) :
      Step s (SimpleSrv.handlePlayerAction s pid data issue).1
  | chatM (s : ServerState) (pid : String) (data : JVal) :
      Step s (handleChat s pid data).1
  | disc (s : ServerState) (pid : String) :
      Step s (handleDisconnect s pid).1

/-- States reachable from the freshly constructed server (empty registry
and player table, as built by NewSimpleServer). -/
inductive Reachable : ServerState → Prop where
  | init : Reachable ⟨[], []⟩
  | step {s s2 : ServerState} : Reachable s → Step s s2 → Reachable s2

theorem lookupKey_insertKey_self {α : Type} (k : String) (v : α) (l : List (String × α)) :
    lookupKey k (insertKey k v l) = some v := by
  induction l with
  | nil => simp [insertKey, lookupKey]
  | cons hd tl ih =>
    obtain ⟨k1, v1⟩ := hd
    by_cases h : k1 = k
    · simp [insertKey, lookupKey, h]
    · simp [insertKey, lookupKey, h, ih]

theorem lookupKey_insertKey_ne {α : Type} {k k1 : String} (v : α) (l : List (String × α))
    (h : k ≠ k1) : lookupKey k1 (insertKey k v l) = lookupKey k1 l := by
  induction l with
  | nil => simp [insertKey, lookupKey, h]
  | cons hd tl ih =>
    obtain ⟨k2, v2⟩ := hd
    by_cases h2 : k2 = k
    · subst h2
      simp [insertKey, lookupKey, h]
    · simp [insertKey, lookupKey, h2, ih]

theorem lookupKey_eraseKey_self {α : Type} (k : String) (l : List (String × α)) :
    lookupKey k (eraseKey k l) = none := by
  induction l with
  | nil => simp [eraseKey, lookupKey]
  | cons hd tl ih =>
    obtain ⟨k1, v1⟩ := hd
    by_cases h : k1 = k
    · simp [eraseKey, h, ih]
    · simp [eraseKey, lookupKey, h, ih]

theorem lookupKey_eraseKey_ne {α : Type} {k k1 : String} (l : List (String × α))
    (h : k ≠ k1) : lookupKey k1 (eraseKey k l) = lookupKey k1 l := by
  induction l with
  | nil => simp [eraseKey]
  | cons hd tl ih =>
    obtain ⟨k2, v2⟩ := hd
    by_cases h2 : k2 = k
    · subst h2
      simp [eraseKey, lookupKey, h, ih]
    · simp [eraseKey, lookupKey, h2, ih]

theorem addMember_length_le (pid : String) (ms : List String) :
    (addMember pid ms).length ≤ ms.length + 1 := by
  unfold addMember
  split
  · omega
  · simp

theorem addMember_length_not_mem {pid : String} {ms : List String} (h : pid ∉ ms) :
    (addMember pid ms).length = ms.length + 1 := by
  unfold addMember
  rw [if_neg h]
  simp

theorem find?_updateFirst {α : Type} (p : α → Bool) (f : α → α)
    (hpf : ∀ a, p a = true → p (f a) = true) :
    ∀ (l : List α) (a : α), l.find? p = some a → (updateFirst p f l).find? p = some (f a) := by
  intro l
  induction l with
  | nil => intro a h; cases h
  | cons b tl ih =>
    intro a h
    cases hb : p b with
    | true =>
      rw [List.find?_cons_of_pos _ hb] at h
      injection h with h
      subst h
      unfold updateFirst
      rw [if_pos hb]
      exact List.find?_cons_of_pos _ (hpf b hb)
    | false =>
      rw [List.find?_cons_of_neg _ (by simp [hb])] at h
      unfold updateFirst
      rw [if_neg (by simp [hb])]
      rw [List.find?_cons_of_neg _ (by simp [hb])]
      exact ih a h

theorem removeMember_length_le (pid : String) (ms : List String) :
    (removeMember pid ms).length ≤ ms.length :=
  List.length_filter_le _ _

/-- Per-room invariant: membership never exceeds capacity and every task of
the embedded game state is still in the `available` status. -/
def roomInv (room : GameRoom) : Prop :=
  room.players.length ≤ room.maxPlayers ∧ ∀ t ∈ room.gameState.tasks, t.status = "available"

/-- Server invariant: every registered room satisfies `roomInv`. -/
def Inv (s : ServerState) : Prop :=
  ∀ rid room, lookupKey rid s.rooms = some room → roomInv room

theorem Inv_of_rooms_eq {s s1 : ServerState} (h : s1.rooms = s.rooms) (hs : Inv s) : Inv s1 := by
  intro rid room hr
  exact hs rid room (h ▸ hr)

theorem getOrCreatePlayer_rooms {s s1 : ServerState} {playerDID freshId : String} {p : Player}
    (h : getOrCreatePlayer s playerDID freshId = some (s1, p)) : s1.rooms = s.rooms := by
  unfold getOrCreatePlayer at h
  split at h
  · simp at h
    exact (h.1 ▸ rfl)
  · split at h
    · simp at h
      exact (h.1 ▸ rfl)
    · simp at h

theorem handleAuth_rooms {s s1 : ServerState} {conn : ConnId} {data : JVal}
    {resolve : String → Except String String} {freshId : String} {op : Option Player}
    {sends : List Send}
    (h : handleAuth s conn data resolve freshId = some (s1, op, sends)) : s1.rooms = s.rooms := by
  unfold handleAuth at h
  split at h
  · simp at h
    exact (h.1 ▸ rfl)
  · split at h
    · simp at h
      exact (h.1 ▸ rfl)
    · split at h
      · simp at h
        exact (h.1 ▸ rfl)
      · split at h
        · simp at h
        · rename_i hgo
          simp at h
          have hr := getOrCreatePlayer_rooms hgo
          rw [← h.1]
          simpa using hr

theorem authState_rooms (s : ServerState) (conn : ConnId) (data : JVal)
    (resolve : String → Except String String) (freshId : String) :
    (authState s conn data resolve freshId).rooms = s.rooms := by
  unfold authState
  split
  · rename_i s1 op sends heq
    exact handleAuth_rooms heq
  · rfl

theorem handlePlayerMove_rooms (s : ServerState) (pid : String) (data : JVal) :
    (handlePlayerMove s pid data).1.rooms = s.rooms := by
  unfold handlePlayerMove
  split
  · rfl
  · split
    · rfl
    · split
      · rfl
      · split
        · rfl
        · rfl

theorem handleChat_state (s : ServerState) (pid : String) (data : JVal) :
    (handleChat s pid data).1 = s := by
  unfold handleChat
  split
  · rfl
  · split
    · rfl
    · split
      · rfl
      · split
        · rfl
        · rfl

theorem handleDisconnect_rooms (s : ServerState) (pid : String) :
    (handleDisconnect s pid).1.rooms = s.rooms := by
  unfold handleDisconnect
  split
  · rfl
  · dsimp only
    split <;> rfl

theorem inv_leaveRoom {s : ServerState} (pid : String) (hs : Inv s) : Inv (leaveRoom s pid) := by
  unfold leaveRoom
  cases hp : lookupKey pid s.players with
  | none => exact hs
  | some player =>
    dsimp only
    cases hr : player.room with
    | none => exact hs
    | some rid =>
      dsimp only
      cases hro : lookupKey rid s.rooms with
      | none => exact Inv_of_rooms_eq rfl hs
      | some room =>
        dsimp only
        split
        · intro rid2 room2 h2
          by_cases he : rid = rid2
          · subst he
            rw [lookupKey_eraseKey_self] at h2
            cases h2
          · rw [lookupKey_eraseKey_ne _ he, lookupKey_insertKey_ne _ _ he] at h2
            exact hs rid2 room2 h2
        · intro rid2 room2 h2
          by_cases he : rid = rid2
          · subst he
            rw [lookupKey_insertKey_self] at h2
            injection h2 with h2
            subst h2
            refine ⟨le_trans (removeMember_length_le _ _) (hs rid room hro).1, ?_⟩
            exact (hs rid room hro).2
          · rw [lookupKey_insertKey_ne _ _ he] at h2
            exact hs rid2 room2 h2

theorem leaveRoom_lookup_rooms_ne {s : ServerState} {pid : String} {player : Player}
    (hp : lookupKey pid s.players = some player) {rid2 : String} (h : player.room ≠ some rid2) :
    lookupKey rid2 (leaveRoom s pid).rooms = lookupKey rid2 s.rooms := by
  unfold leaveRoom
  rw [hp]
  dsimp only
  cases hr : player.room with
  | none => rfl
  | some rid =>
    dsimp only
    have hne : rid ≠ rid2 := by
      intro he
      exact h (hr.trans (congrArg some he))
    cases hro : lookupKey rid s.rooms with
    | none => rfl
    | some room =>
      dsimp only
      split
      · rw [lookupKey_eraseKey_ne _ hne, lookupKey_insertKey_ne _ _ hne]
      · rw [lookupKey_insertKey_ne _ _ hne]

theorem leaveRoom_lookup_self {s : ServerState} {pid : String} {player : Player}
    (hp : lookupKey pid s.players = some player) :
    lookupKey pid (leaveRoom s pid).players = some { player with room := none } := by
  unfold leaveRoom
  rw [hp]
  dsimp only
  cases hr : player.room with
  | none =>
    dsimp only
    obtain ⟨pi, pd, pn, pp, pl, ph, pm, ps, pc, proom⟩ := player
    simp only at hr
    subst hr
    exact hp
  | some rid =>
    dsimp only
    cases hro : lookupKey rid s.rooms with
    | none => exact lookupKey_insertKey_self _ _ _
    | some room =>
      dsimp only
      split
      · exact lookupKey_insertKey_self _ _ _
      · exact lookupKey_insertKey_self _ _ _

theorem inv_joinRoom {s s2 : ServerState} {pid roomID : String}
    (hs : Inv s) (h : joinRoom s pid roomID = .ok s2) : Inv s2 := by
  unfold joinRoom at h
  split at h
  case h_2 => cases h
  rename_i room player hlookR hlookP
  split at h
  · cases h
  · split at h
    · cases h
    · rename_i hcap hsame
      dsimp only at h
      split at h
      case h_2 => cases h
      rename_i room1 player1 hlookR1 hlookP1
      injection h with h
      subst h
      -- the pre-join room is unchanged by leaving the previous (distinct) room
      have hroom1 : room1 = room := by
        by_cases hp : player.room.isSome
        · rw [if_pos hp] at hlookR1
          rw [leaveRoom_lookup_rooms_ne hlookP hsame, hlookR] at hlookR1
          injection hlookR1 with h1
          exact h1.symm
        · rw [if_neg hp] at hlookR1
          rw [hlookR] at hlookR1
          injection hlookR1 with h1
          exact h1.symm
      have hinv1 : Inv (if player.room.isSome then leaveRoom s pid else s) := by
        split
        · exact inv_leaveRoom pid hs
        · exact hs
      intro rid2 rm2 h2
      by_cases he : roomID = rid2
      · subst he
        rw [lookupKey_insertKey_self] at h2
        injection h2 with h2
        subst h2
        subst hroom1
        have hlt : room1.players.length < room1.maxPlayers := Nat.lt_of_not_le hcap
        constructor
        · exact le_trans (addMember_length_le _ _) (Nat.succ_le_of_lt hlt)
        · intro t ht
          exact (hs roomID room1 hlookR).2 t ht
      · rw [lookupKey_insertKey_ne _ _ he] at h2
        exact hinv1 rid2 rm2 h2

theorem joinRoom_err_state {s s2 : ServerState} {pid roomID e : String}
    (h : joinRoom s pid roomID = .err s2 e) : s2 = s ∧ e = "room is full" := by
  unfold joinRoom at h
  split at h
  case h_2 => cases h
  split at h
  · injection h with h1 h2
    exact ⟨h1.symm, h2.symm⟩
  · split at h
    · cases h
    · dsimp only at h
      split at h
      · cases h
      · cases h

theorem inv_getOrCreateRoom_simple {s : ServerState} (roomID gameID : String) (hs : Inv s) :
    Inv (SimpleSrv.getOrCreateRoom s roomID gameID).1 := by
  unfold SimpleSrv.getOrCreateRoom
  split
  · exact hs
  · intro rid2 rm2 h2
    by_cases he : roomID = rid2
    · subst he
      rw [lookupKey_insertKey_self] at h2
      injection h2 with h2
      subst h2
      refine ⟨by simp, ?_⟩
      intro t ht
      simp [SimpleSrv.createDefaultGameState] at ht
      subst ht
      rfl
    · rw [lookupKey_insertKey_ne _ _ he] at h2
      exact hs rid2 rm2 h2

theorem simple_completeTask_of_inv {s : ServerState} {pid : String}
    {fields : List (String × JVal)} {issue : Except String Credential} (hs : Inv s) :
    SimpleSrv.handleCompleteTask s pid fields issue = (s, [], []) := by
  unfold SimpleSrv.handleCompleteTask
  cases hp : lookupKey pid s.players with
  | none => rfl
  | some player =>
    dsimp only
    cases hr : player.room with
    | none => rfl
    | some roomID =>
      dsimp only
      cases hro : lookupKey roomID s.rooms with
      | none => rfl
      | some room =>
        dsimp only
        cases ht : getStr fields "taskId" with
        | none => rfl
        | some taskID =>
          dsimp only
          cases hf : room.gameState.tasks.find? (fun t => t.id = taskID) with
          | none => rfl
          | some task =>
            dsimp only
            have hmem : task ∈ room.gameState.tasks := List.mem_of_find?_eq_some hf
            have hav : task.status = "available" := (hs roomID room hro).2 task hmem
            rw [if_pos (by rw [hav]; decide)]

theorem srv_completeTask_of_inv {s : ServerState} {pid : String}
    {fields : List (String × JVal)} {issue : String → String → Except String Credential}
    (hs : Inv s) :
    Srv.handleCompleteTask s pid fields issue = (s, [], []) := by
  unfold Srv.handleCompleteTask
  cases hp : lookupKey pid s.players with
  | none => rfl
  | some player =>
    dsimp only
    cases hr : player.room with
    | none => rfl
    | some roomID =>
      dsimp only
      cases hro : lookupKey roomID s.rooms with
      | none => rfl
      | some room =>
        dsimp only
        cases ht : getStr fields "taskId" with
        | none => rfl
        | some taskID =>
          dsimp only
          cases hf : room.gameState.tasks.find? (fun t => t.id = taskID) with
          | none => rfl
          | some task =>
            dsimp only
            have hmem : task ∈ room.gameState.tasks := List.mem_of_find?_eq_some hf
            have hav : task.status = "available" := (hs roomID room hro).2 task hmem
            rw [if_pos (by rw [hav]; decide)]

theorem inv_handlePlayerAction_simple {s : ServerState} (pid : String) (data : JVal)
    (issue : Except String Credential) (hs : Inv s) :
    Inv (SimpleSrv.handlePlayerAction s pid data issue).1 := by
  unfold SimpleSrv.handlePlayerAction
  cases hp : lookupKey pid s.players with
  | none => exact hs
  | some player =>
    dsimp only
    cases hr : player.room with
    | none => exact hs
    | some roomID =>
      dsimp only
      cases ho : data.asObj with
      | none => exact hs
      | some fields =>
        dsimp only
        cases ha : getStr fields "action" with
        | none => exact hs
        | some action =>
          dsimp only
          split
          · rw [simple_completeTask_of_inv hs]
            exact hs
          · exact hs

theorem inv_handleJoinRoom_simple {s : ServerState} (pid : String) (data : JVal)
    (hs : Inv s) : Inv (SimpleSrv.handleJoinRoom s pid data).1 := by
  unfold SimpleSrv.handleJoinRoom
  cases hp : lookupKey pid s.players with
  | none => exact hs
  | some player =>
    dsimp only
    cases ho : data.asObj with
    | none => exact hs
    | some fields =>
      dsimp only
      have hs1 := inv_getOrCreateRoom_simple ((getStr fields "roomId").getD "default") "default" hs
      cases hj : joinRoom (SimpleSrv.getOrCreateRoom s ((getStr fields "roomId").getD "default") "default").1
          pid ((getStr fields "roomId").getD "default") with
      | ok s2 =>
        dsimp only
        have hs2 := inv_joinRoom hs1 hj
        split
        · exact hs2
        · exact hs2
      | err s2 e =>
        dsimp only
        obtain ⟨he, _⟩ := joinRoom_err_state hj
        subst he
        exact hs1
      | stuck => exact hs1

theorem inv_step {s s2 : ServerState} (hs : Inv s) (h : Step s s2) : Inv s2 := by
  cases h with
  | auth conn data resolve freshId => exact Inv_of_rooms_eq (authState_rooms s conn data resolve freshId) hs
  | joinR pid data => exact inv_handleJoinRoom_simple pid data hs
  | leaveR pid =>
    unfold handleLeaveRoom
    cases hp : lookupKey pid s.players with
    | none => exact hs
    | some player =>
      dsimp only
      cases hr : player.room with
      | none => exact hs
      | some roomID => exact inv_leaveRoom pid hs
  | move pid data => exact Inv_of_rooms_eq (handlePlayerMove_rooms s pid data) hs
  | act pid data issue => exact inv_handlePlayerAction_simple pid data issue hs
  | chatM pid data => exact Inv_of_rooms_eq (congrArg ServerState.rooms (handleChat_state s pid data)) hs
  | disc pid => exact Inv_of_rooms_eq (handleDisconnect_rooms s pid) hs

theorem reachable_inv {s : ServerState} (h : Reachable s) : Inv s := by
  induction h with
  | init =>
    intro rid room hr
    cases hr
  | step _ hstep ih => exact inv_step ih hstep

/-- Resolver oracle that resolves every DID (stands for a DID service in
which the DIDs of this trace are registered). -/
def exResolve : String → Except String String := fun d => .ok d

/-- The freshly constructed server state of NewSimpleServer. -/
def s0 : ServerState := ⟨[], []⟩

/-- Trace state: player A (conn 0, DID did:game:aaaa0001, fresh id PA)
authenticated. -/
def sA : ServerState :=
  authState s0 0 (.obj [("did", .str "did:game:aaaa0001")]) exResolve "PA"

/-- Trace state: player B (conn 1, DID did:game:bbbb0002, fresh id PB) also
authenticated. -/
def sB : ServerState :=
  authState sA 1 (.obj [("did", .str "did:game:bbbb0002")]) exResolve "PB"

/-- Trace state: A joined room r1. -/
def sC : ServerState :=
  (SimpleSrv.handleJoinRoom sB "PA" (.obj [("roomId", .str "r1")])).1

/-- Trace state: B joined room r1 as well. -/
def sD : ServerState :=
  (SimpleSrv.handleJoinRoom sC "PB" (.obj [("roomId", .str "r1")])).1

/-- Trace state: B's connection terminated (dispatcher ran handleDisconnect). -/
def sE : ServerState := (handleDisconnect sD "PB").1

theorem reachable_sD : Reachable sD :=
  ((((Reachable.init.step (Step.auth s0 0 (.obj [("did", .str "did:game:aaaa0001")]) exResolve "PA")).step
    (Step.auth sA 1 (.obj [("did", .str "did:game:bbbb0002")]) exResolve "PB")).step
    (Step.joinR sB "PA" (.obj [("roomId", .str "r1")]))).step
    (Step.joinR sC "PB" (.obj [("roomId", .str "r1")])))

theorem reachable_sE : Reachable sE := reachable_sD.step (Step.disc sD "PB")

/-- Quest task used to exercise the completion handlers in the `active`
status, with a single credential reward. -/
def taskT1 : Task :=
  { id := "t1", name := "First Quest", description := "A first quest", type := "quest",
    status := "active", objectives := [],
    rewards := [{ type := "credential", value := .str "QuestCredential", properties := [] }] }

/-- Player E, connected on conn 5 and member of room r2. -/
def playerE : Player :=
  { id := "E", did := "did:game:eeee0005", nickname := "Player_eeee0005", position := ⟨0, 0⟩,
    level := 1, health := 100, maxHealth := 100, status := "online", connection := some 5,
    room := some "r2" }

/-- Room r2 holding the active task t1, with E as its only member. -/
def roomR2 : GameRoom :=
  { id := "r2", name := "Room r2", gameId := "default", maxPlayers := 10, players := ["E"],
    gameState := { status := "playing", map := defaultGameMap, tasks := [taskT1], events := [] } }

/-- Explicit state with an active task: the completion claims quantify over
states with an `active` task, which the handlers themselves never produce,
so this state supplies the hypothesis the claims assume. -/
def sC2 : ServerState := ⟨[("r2", roomR2)], [("E", playerE)]⟩

/-- Value of player A in state sB (authenticated, no room yet). -/
def playerA_sB : Player :=
  { id := "PA", did := "did:game:aaaa0001", nickname := "Player_aaaa0001", position := ⟨0, 0⟩,
    level := 1, health := 100, maxHealth := 100, status := "online", connection := some 0,
    room := none }

/-- Value of player A in state sC (joined r1, spawn point index 1). -/
def playerA_sC : Player :=
  { id := "PA", did := "did:game:aaaa0001", nickname := "Player_aaaa0001", position := ⟨200, 200⟩,
    level := 1, health := 100, maxHealth := 100, status := "online", connection := some 0,
    room := some "r1" }

/-- Value of player B in state sD (joined r1, spawn point index 2). -/
def playerB_sD : Player :=
  { id := "PB", did := "did:game:bbbb0002", nickname := "Player_bbbb0002", position := ⟨300, 300⟩,
    level := 1, health := 100, maxHealth := 100, status := "online", connection := some 1,
    room := some "r1" }

/-- Value of room r1 in state sC (sole member PA). -/
def roomR1_sC : GameRoom :=
  { id := "r1", name := "Room r1", gameId := "default", maxPlayers := 10, players := ["PA"],
    gameState := SimpleSrv.createDefaultGameState }

/-- Value of room r1 in states sD and sE (members PA and PB). -/
def roomR1_sD : GameRoom :=
  { id := "r1", name := "Room r1", gameId := "default", maxPlayers := 10, players := ["PA", "PB"],
    gameState := SimpleSrv.createDefaultGameState }

theorem broadcast_sends {s : ServerState} {roomID : String} {room : GameRoom} {msg : Message}
    {ex : String} (hro : lookupKey roomID s.rooms = some room) :
    ∀ snd ∈ broadcastToRoom s roomID msg ex,
      snd.pid ≠ ex ∧ snd.pid ∈ room.players ∧ snd.msg = msg ∧
      ∃ p, lookupKey snd.pid s.players = some p ∧ p.connection = some snd.conn := by
  intro snd hsnd
  unfold broadcastToRoom at hsnd
  rw [hro] at hsnd
  dsimp only at hsnd
  rw [List.mem_filterMap] at hsnd
  obtain ⟨q, hq, hfq⟩ := hsnd
  by_cases hqe : q ≠ ex
  · rw [if_pos hqe] at hfq
    cases hlp : lookupKey q s.players with
    | none => rw [hlp] at hfq; cases hfq
    | some p =>
      rw [hlp] at hfq
      dsimp only at hfq
      cases hc : p.connection with
      | none => rw [hc] at hfq; cases hfq
      | some c =>
        rw [hc] at hfq
        dsimp only at hfq
        injection hfq with hfq
        subst hfq
        exact ⟨hqe, hq, rfl, p, hlp, hc⟩
  · rw [if_neg hqe] at hfq
    cases hfq

theorem broadcast_delivers {s : ServerState} {roomID : String} {room : GameRoom} {msg : Message}
    {ex : String} (hro : lookupKey roomID s.rooms = some room)
    {q : String} (hq : q ∈ room.players) (hqe : q ≠ ex) {p : Player}
    (hlp : lookupKey q s.players = some p) {c : ConnId} (hc : p.connection = some c) :
    (⟨q, c, msg⟩ : Send) ∈ broadcastToRoom s roomID msg ex := by
  unfold broadcastToRoom
  rw [hro]
  dsimp only
  rw [List.mem_filterMap]
  refine ⟨q, hq, ?_⟩
  rw [if_pos hqe, hlp]
  dsimp only
  rw [hc]

theorem processReward_error_sends {player : Player} {task : Task} {e : String}
    {issue : String → String → Except String Credential}
    (h : ∀ d c, issue d c = .error e) (r : Reward) :
    (Srv.processReward player r task issue).1 = [] := by
  unfold Srv.processReward
  split
  · dsimp only
    rw [h]
  · rfl

theorem reward_sends_nil {player : Player} {task : Task} {e : String}
    {issue : String → String → Except String Credential}
    (h : ∀ d c, issue d c = .error e) (rs : List Reward) :
    ((rs.map (fun r => Srv.processReward player r task issue)).map Prod.fst).flatten = [] := by
  induction rs with
  | nil => rfl
  | cons a tl ih =>
    simp only [List.map_cons, List.flatten_cons, processReward_error_sends h a, ih]
    rfl

/-- Claim C1 is refuted: in the reachable state sE, obtained by B's
connection terminating from the InRoom state sD, disconnect handling has
completed and B ("PB") is still a member of room r1's membership map and
still references r1 — the claimed removal does not happen. -/
theorem C1_counterexample :
    Reachable sE ∧
    (lookupKey "r1" sE.rooms).map (fun r => r.players.contains "PB") = some true ∧
    (lookupKey "PB" sE.players).map Player.room = some (some "r1") :=
  ⟨reachable_sE, by decide, by decide⟩

/-- Claim C1 as amended: disconnect handling marks the session offline and
clears its connection handle, and broadcasts a "disconnected" player_update
to the other members, but it does not remove the session from its Room's
membership map — the rooms table is unchanged and the session still
references its room. -/
theorem C1_disconnect_keeps_membership {s : ServerState} {pid : String} {player : Player}
    (hp : lookupKey pid s.players = some player) :
    (handleDisconnect s pid).1.rooms = s.rooms ∧
    lookupKey pid (handleDisconnect s pid).1.players =
      some { player with status := "offline", connection := none } ∧
    (player.room = none → (handleDisconnect s pid).2 = []) ∧
    (∀ rid, player.room = some rid →
      (handleDisconnect s pid).2 =
        broadcastToRoom (handleDisconnect s pid).1 rid
          { type := MsgTypePlayerUpdate, playerId := pid, roomId := rid,
            data := .playerUpdate "disconnected"
              { player with status := "offline", connection := none } } pid) := by
  unfold handleDisconnect
  rw [hp]
  dsimp only
  refine ⟨?_, ?_, ?_, ?_⟩
  · cases hr : player.room <;> rfl
  · cases hr : player.room
    · exact lookupKey_insertKey_self _ _ _
    · exact lookupKey_insertKey_self _ _ _
  · intro hr
    rw [hr]
  · intro rid hr
    rw [hr]

/-- Witness for C1's amended theorem at the reachable state sD. -/
theorem C1_witness :
    lookupKey "PB" sD.players = some playerB_sD ∧
    (handleDisconnect sD "PB").1.rooms = sD.rooms :=
  ⟨by decide,
   (C1_disconnect_keeps_membership
     (by decide : lookupKey "PB" sD.players = some playerB_sD)).1⟩

/-- Abbreviation used in statements: the task list after the task named
`taskID` has been flipped to `completed` (the mutation handleCompleteTask
performs through the found task pointer). -/
def completeTasks (taskID : String) (ts : List Task) : List Task :=
  updateFirst (fun t => t.id = taskID) (fun t => { t with status := "completed" }) ts

/-- Claim C2 is refuted: completing the active task t1 while the credential
collaborator errors produces, in simple_server.go, no messages at all — in
particular neither the claimed task_update broadcast nor the claimed error
envelope reach player E — even though the task status stays completed. -/
theorem C2_counterexample :
    (SimpleSrv.handleCompleteTask sC2 "E" [("taskId", .str "t1")] (.error "issue failed")).2.1 =
      [] ∧
    (lookupKey "r2" (SimpleSrv.handleCompleteTask sC2 "E" [("taskId", .str "t1")]
        (.error "issue failed")).1.rooms).map
      (fun r => r.gameState.tasks.map (fun t => (t.id, t.status))) =
      some [("t1", "completed")] :=
  ⟨by decide, by decide⟩

/-- Claim C2 as amended: when credential issuance fails, the failure is only
logged and nothing is sent to the acting player about it (no error
envelope). In simple_server.go the handler returns early, so the
task_update broadcast is also skipped; in server.go the task_update
broadcast still goes out to the whole room. In both, exactly one issuance
was attempted and the Task's completed status is not rolled back. -/
theorem C2_reward_failure_logged_only {s : ServerState} {pid roomID taskID e : String}
    {player : Player} {room : GameRoom} {task : Task} {fields : List (String × JVal)}
    (hp : lookupKey pid s.players = some player)
    (hr : player.room = some roomID)
    (hro : lookupKey roomID s.rooms = some room)
    (ht : getStr fields "taskId" = some taskID)
    (hf : room.gameState.tasks.find? (fun t => t.id = taskID) = some task)
    (hact : task.status = "active") :
    (SimpleSrv.handleCompleteTask s pid fields (.error e)).2.1 = [] ∧
    (SimpleSrv.handleCompleteTask s pid fields (.error e)).2.2 =
      [⟨player.did, "AchievementCredential", task.name⟩] ∧
    lookupKey roomID (SimpleSrv.handleCompleteTask s pid fields (.error e)).1.rooms =
      some { room with gameState :=
        { room.gameState with tasks := completeTasks taskID room.gameState.tasks } } ∧
    ∀ issue : String → String → Except String Credential, (∀ d c, issue d c = .error e) →
      (Srv.handleCompleteTask s pid fields issue).2.1 =
        broadcastToRoom (Srv.handleCompleteTask s pid fields issue).1 roomID
          { type := MsgTypeTaskUpdate, playerId := pid, roomId := roomID,
            data := .taskUpdate { task with status := "completed" } "completed" } "" ∧
      lookupKey roomID (Srv.handleCompleteTask s pid fields issue).1.rooms =
        some { room with gameState :=
          { room.gameState with tasks := completeTasks taskID room.gameState.tasks } } := by
  have hguard : ¬ (task.status ≠ "active") := by
    rw [hact]
    simp
  unfold SimpleSrv.handleCompleteTask Srv.handleCompleteTask
  rw [hp]
  dsimp only
  rw [hr]
  dsimp only
  rw [hro]
  dsimp only
  rw [ht]
  dsimp only
  rw [hf]
  dsimp only
  rw [if_neg hguard]
  dsimp only
  refine ⟨rfl, rfl, lookupKey_insertKey_self _ _ _, ?_⟩
  intro issue hiss
  rw [if_neg hguard]
  dsimp only
  constructor
  · rw [reward_sends_nil hiss]
    rw [List.nil_append]
  · exact lookupKey_insertKey_self _ _ _

/-- Witness for C2's amended theorem at the explicit state sC2. -/
theorem C2_witness :
    (SimpleSrv.handleCompleteTask sC2 "E" [("taskId", .str "t1")] (.error "boom")).2.2 =
      [⟨"did:game:eeee0005", "AchievementCredential", "First Quest"⟩] ∧
    (Srv.handleCompleteTask sC2 "E" [("taskId", .str "t1")] (fun _ _ => .error "boom")).2.1 =
      broadcastToRoom
        (Srv.handleCompleteTask sC2 "E" [("taskId", .str "t1")] (fun _ _ => .error "boom")).1
        "r2"
        { type := MsgTypeTaskUpdate, playerId := "E", roomId := "r2",
          data := .taskUpdate { taskT1 with status := "completed" } "completed" } "" :=
  ⟨(@C2_reward_failure_logged_only sC2 "E" "r2" "t1" "boom" playerE roomR2 taskT1
      [("taskId", .str "t1")] (by decide) (by decide) (by decide) (by decide) (by decide)
      (by decide)).2.1,
   ((@C2_reward_failure_logged_only sC2 "E" "r2" "t1" "boom" playerE roomR2 taskT1
      [("taskId", .str "t1")] (by decide) (by decide) (by decide) (by decide) (by decide)
      (by decide)).2.2.2 (fun _ _ => .error "boom") (fun _ _ => rfl)).1⟩

theorem simple_completeTask_guard {s : ServerState} {pid taskID roomID : String}
    {fields : List (String × JVal)} {issue : Except String Credential}
    {player : Player} {room : GameRoom}
    (hp : lookupKey pid s.players = some player)
    (hr : player.room = some roomID)
    (hro : lookupKey roomID s.rooms = some room)
    (ht : getStr fields "taskId" = some taskID)
    (hg : ∀ task, room.gameState.tasks.find? (fun t => t.id = taskID) = some task →
      task.status ≠ "active") :
    SimpleSrv.handleCompleteTask s pid fields issue = (s, [], []) := by
  unfold SimpleSrv.handleCompleteTask
  rw [hp]
  dsimp only
  rw [hr]
  dsimp only
  rw [hro]
  dsimp only
  rw [ht]
  dsimp only
  cases hf : room.gameState.tasks.find? (fun t => t.id = taskID) with
  | none => rfl
  | some task =>
    dsimp only
    rw [if_pos (hg task hf)]

theorem srv_completeTask_guard {s : ServerState} {pid taskID roomID : String}
    {fields : List (String × JVal)} {issue : String → String → Except String Credential}
    {player : Player} {room : GameRoom}
    (hp : lookupKey pid s.players = some player)
    (hr : player.room = some roomID)
    (hro : lookupKey roomID s.rooms = some room)
    (ht : getStr fields "taskId" = some taskID)
    (hg : ∀ task, room.gameState.tasks.find? (fun t => t.id = taskID) = some task →
      task.status ≠ "active") :
    Srv.handleCompleteTask s pid fields issue = (s, [], []) := by
  unfold Srv.handleCompleteTask
  rw [hp]
  dsimp only
  rw [hr]
  dsimp only
  rw [hro]
  dsimp only
  rw [ht]
  dsimp only
  cases hf : room.gameState.tasks.find? (fun t => t.id = taskID) with
  | none => rfl
  | some task =>
    dsimp only
    rw [if_pos (hg task hf)]

/-- Dichotomy for simple_server.go's handleCompleteTask: either the request
is silently ignored — identically for every issuance outcome — or an active
task was found and, for every issuance outcome, the resulting state is the
one with that task flipped to completed. -/
theorem simple_completeTask_dichotomy (s : ServerState) (pid : String)
    (fields : List (String × JVal)) :
    (∀ issue, SimpleSrv.handleCompleteTask s pid fields issue = (s, [], [])) ∨
    (∃ player roomID room taskID task,
      lookupKey pid s.players = some player ∧ player.room = some roomID ∧
      lookupKey roomID s.rooms = some room ∧ getStr fields "taskId" = some taskID ∧
      room.gameState.tasks.find? (fun t => t.id = taskID) = some task ∧
      task.status = "active" ∧
      ∀ issue, (SimpleSrv.handleCompleteTask s pid fields issue).1 =
        { s with rooms := insertKey roomID { room with gameState :=
          { room.gameState with tasks := completeTasks taskID room.gameState.tasks } } s.rooms }) := by
  cases hp : lookupKey pid s.players with
  | none =>
    left
    intro issue
    unfold SimpleSrv.handleCompleteTask
    rw [hp]
  | some player =>
    cases hr : player.room with
    | none =>
      left
      intro issue
      unfold SimpleSrv.handleCompleteTask
      rw [hp]
      dsimp only
      rw [hr]
    | some roomID =>
      cases hro : lookupKey roomID s.rooms with
      | none =>
        left
        intro issue
        unfold SimpleSrv.handleCompleteTask
        rw [hp]
        dsimp only
        rw [hr]
        dsimp only
        rw [hro]
      | some room =>
        cases ht : getStr fields "taskId" with
        | none =>
          left
          intro issue
          unfold SimpleSrv.handleCompleteTask
          rw [hp]
          dsimp only
          rw [hr]
          dsimp only
          rw [hro]
          dsimp only
          rw [ht]
        | some taskID =>
          cases hf : room.gameState.tasks.find? (fun t => t.id = taskID) with
          | none =>
            left
            intro issue
            exact simple_completeTask_guard hp hr hro ht
              (fun task h => by rw [hf] at h; cases h)
          | some task =>
            by_cases hact : task.status = "active"
            · right
              refine ⟨player, roomID, room, taskID, task, rfl, hr, hro, rfl, hf, hact, ?_⟩
              intro issue
              unfold SimpleSrv.handleCompleteTask
              rw [hp]
              dsimp only
              rw [hr]
              dsimp only
              rw [hro]
              dsimp only
              rw [ht]
              dsimp only
              rw [hf]
              dsimp only
              rw [if_neg (by rw [hact]; simp)]
              cases issue <;> rfl
            · left
              intro issue
              exact simple_completeTask_guard hp hr hro ht
                (fun task2 h => by
                  rw [hf] at h
                  injection h with h
                  rw [← h]
                  exact hact)

/-- Dichotomy for server.go's handleCompleteTask, mirroring the simple one. -/
theorem srv_completeTask_dichotomy (s : ServerState) (pid : String)
    (fields : List (String × JVal)) :
    (∀ issue, Srv.handleCompleteTask s pid fields issue = (s, [], [])) ∨
    (∃ player roomID room taskID task,
      lookupKey pid s.players = some player ∧ player.room = some roomID ∧
      lookupKey roomID s.rooms = some room ∧ getStr fields "taskId" = some taskID ∧
      room.gameState.tasks.find? (fun t => t.id = taskID) = some task ∧
      task.status = "active" ∧
      ∀ issue, (Srv.handleCompleteTask s pid fields issue).1 =
        { s with rooms := insertKey roomID { room with gameState :=
          { room.gameState with tasks := completeTasks taskID room.gameState.tasks } } s.rooms }) := by
  cases hp : lookupKey pid s.players with
  | none =>
    left
    intro issue
    unfold Srv.handleCompleteTask
    rw [hp]
  | some player =>
    cases hr : player.room with
    | none =>
      left
      intro issue
      unfold Srv.handleCompleteTask
      rw [hp]
      dsimp only
      rw [hr]
    | some roomID =>
      cases hro : lookupKey roomID s.rooms with
      | none =>
        left
        intro issue
        unfold Srv.handleCompleteTask
        rw [hp]
        dsimp only
        rw [hr]
        dsimp only
        rw [hro]
      | some room =>
        cases ht : getStr fields "taskId" with
        | none =>
          left
          intro issue
          unfold Srv.handleCompleteTask
          rw [hp]
          dsimp only
          rw [hr]
          dsimp only
          rw [hro]
          dsimp only
          rw [ht]
        | some taskID =>
          cases hf : room.gameState.tasks.find? (fun t => t.id = taskID) with
          | none =>
            left
            intro issue
            exact srv_completeTask_guard hp hr hro ht
              (fun task h => by rw [hf] at h; cases h)
          | some task =>
            by_cases hact : task.status = "active"
            · right
              refine ⟨player, roomID, room, taskID, task, rfl, hr, hro, rfl, hf, hact, ?_⟩
              intro issue
              unfold Srv.handleCompleteTask
              rw [hp]
              dsimp only
              rw [hr]
              dsimp only
              rw [hro]
              dsimp only
              rw [ht]
              dsimp only
              rw [hf]
              dsimp only
              rw [if_neg (by rw [hact]; simp)]
              rfl
            · left
              intro issue
              exact srv_completeTask_guard hp hr hro ht
                (fun task2 h => by
                  rw [hf] at h
                  injection h with h
                  rw [← h]
                  exact hact)

/-- After a completion, the found task is completed, so a second completion
of the same task identifier hits the not-active guard. -/
theorem find?_completeTasks {taskID : String} {ts : List Task} {task : Task}
    (hf : ts.find? (fun t => t.id = taskID) = some task) :
    (completeTasks taskID ts).find? (fun t => t.id = taskID) =
      some { task with status := "completed" } := by
  unfold completeTasks
  exact find?_updateFirst _ _ (fun a ha => by simpa using ha) ts task hf

theorem simple_completeTask_idem (s : ServerState) (pid : String)
    (fields : List (String × JVal)) (issue issueB : Except String Credential) :
    SimpleSrv.handleCompleteTask (SimpleSrv.handleCompleteTask s pid fields issue).1 pid fields
      issueB = ((SimpleSrv.handleCompleteTask s pid fields issue).1, [], []) := by
  cases simple_completeTask_dichotomy s pid fields with
  | inl h =>
    rw [h issue]
    exact h issueB
  | inr h =>
    obtain ⟨player, roomID, room, taskID, task, hp, hr, hro, ht, hf, hact, hstate⟩ := h
    rw [hstate issue]
    exact simple_completeTask_guard hp hr (lookupKey_insertKey_self _ _ _) ht
      (fun task2 h2 => by
        rw [find?_completeTasks hf] at h2
        injection h2 with h2
        rw [← h2]
        simp)

theorem srv_completeTask_idem (s : ServerState) (pid : String)
    (fields : List (String × JVal)) (issue issueB : String → String → Except String Credential) :
    Srv.handleCompleteTask (Srv.handleCompleteTask s pid fields issue).1 pid fields issueB =
      ((Srv.handleCompleteTask s pid fields issue).1, [], []) := by
  cases srv_completeTask_dichotomy s pid fields with
  | inl h =>
    rw [h issue]
    exact h issueB
  | inr h =>
    obtain ⟨player, roomID, room, taskID, task, hp, hr, hro, ht, hf, hact, hstate⟩ := h
    rw [hstate issue]
    exact srv_completeTask_guard hp hr (lookupKey_insertKey_self _ _ _) ht
      (fun task2 h2 => by
        rw [find?_completeTasks hf] at h2
        injection h2 with h2
        rw [← h2]
        simp)

/-- Claim C3: a complete_task naming a task that is missing from the room's
game state, or whose status is not "active", is silently ignored by both
servers — unchanged state, no messages, no collaborator call; consequently
a second complete_task after any first one (in particular after a
successful completion, which leaves the task "completed") issues no further
reward and broadcasts nothing. -/
theorem C3_complete_task_idempotent :
    (∀ (s : ServerState) (pid : String) (fields : List (String × JVal))
       (issue : Except String Credential) (issue2 : String → String → Except String Credential)
       (player : Player) (roomID : String) (room : GameRoom) (taskID : String),
       lookupKey pid s.players = some player → player.room = some roomID →
       lookupKey roomID s.rooms = some room → getStr fields "taskId" = some taskID →
       (∀ task, room.gameState.tasks.find? (fun t => t.id = taskID) = some task →
         task.status ≠ "active") →
       SimpleSrv.handleCompleteTask s pid fields issue = (s, [], []) ∧
       Srv.handleCompleteTask s pid fields issue2 = (s, [], [])) ∧
    (∀ (s : ServerState) (pid : String) (fields : List (String × JVal)) (issue issueB),
       SimpleSrv.handleCompleteTask (SimpleSrv.handleCompleteTask s pid fields issue).1 pid
         fields issueB = ((SimpleSrv.handleCompleteTask s pid fields issue).1, [], [])) ∧
    (∀ (s : ServerState) (pid : String) (fields : List (String × JVal)) (issue issueB),
       Srv.handleCompleteTask (Srv.handleCompleteTask s pid fields issue).1 pid fields issueB =
         ((Srv.handleCompleteTask s pid fields issue).1, [], [])) :=
  ⟨fun _ _ _ _ _ _ _ _ _ hp hr hro ht hg =>
    ⟨simple_completeTask_guard hp hr hro ht hg, srv_completeTask_guard hp hr hro ht hg⟩,
   simple_completeTask_idem, srv_completeTask_idem⟩

/-- Witness for C3 at the reachable state sD, whose welcome_task is
"available" (not active), so completion is a silent no-op. -/
theorem C3_witness :
    SimpleSrv.handleCompleteTask sD "PA" [("taskId", .str "welcome_task")] (.ok ⟨"c1"⟩) =
      (sD, [], []) ∧
    Srv.handleCompleteTask sD "PA" [("taskId", .str "welcome_task")] (fun _ _ => .ok ⟨"c1"⟩) =
      (sD, [], []) :=
  C3_complete_task_idempotent.1 sD "PA" [("taskId", .str "welcome_task")] (.ok ⟨"c1"⟩)
    (fun _ _ => .ok ⟨"c1"⟩) playerA_sC "r1" roomR1_sD "welcome_task"
    (by decide) (by decide) (by decide) (by decide)
    (fun task h => by
      injection h with h2
      rw [← h2]
      decide)

/-- Player Q3, authenticated but in no room, used to attempt a join against
a full room. -/
def playerQ3 : Player :=
  { id := "Q3", did := "did:game:qqqq0003", nickname := "Player_qqqq0003", position := ⟨0, 0⟩,
    level := 1, health := 100, maxHealth := 100, status := "online", connection := some 9,
    room := none }

/-- A room at capacity (two member keys, maxPlayers 2). -/
def roomFull : GameRoom :=
  { id := "rF", name := "Room rF", gameId := "default", maxPlayers := 2,
    players := ["Q1", "Q2"], gameState := SimpleSrv.createDefaultGameState }

/-- Explicit state whose room rF is at capacity. -/
def sFull : ServerState := ⟨[("rF", roomFull)], [("Q3", playerQ3)]⟩

/-- Claim C4: in every reachable state, room membership never exceeds
capacity; and a join against a room at capacity fails with the room-is-full
error reported to the requester only, with the whole server state — in
particular the membership map and the joining player's room reference —
unchanged. -/
theorem C4_capacity_invariant :
    (∀ s, Reachable s → ∀ rid room, lookupKey rid s.rooms = some room →
      room.players.length ≤ room.maxPlayers) ∧
    (∀ (s : ServerState) (pid roomID : String) (room : GameRoom) (player : Player)
       (c : ConnId) (data : JVal) (fields : List (String × JVal)),
      data.asObj = some fields →
      getStr fields "roomId" = some roomID →
      lookupKey roomID s.rooms = some room →
      lookupKey pid s.players = some player →
      player.connection = some c →
      room.maxPlayers ≤ room.players.length →
      joinRoom s pid roomID = .err s "room is full" ∧
      SimpleSrv.handleJoinRoom s pid data =
        (s, sendError c "Failed to join room: room is full")) := by
  constructor
  · intro s hreach rid room hr
    exact (reachable_inv hreach rid room hr).1
  · intro s pid roomID room player c data fields hobj hgs hro hp hc hfull
    have hjoin : joinRoom s pid roomID = .err s "room is full" := by
      unfold joinRoom
      rw [hro, hp]
      dsimp only
      rw [if_pos hfull]
    refine ⟨hjoin, ?_⟩
    unfold SimpleSrv.handleJoinRoom
    rw [hp]
    dsimp only
    rw [hobj]
    dsimp only
    rw [hgs]
    simp only [Option.getD_some]
    unfold SimpleSrv.getOrCreateRoom
    rw [hro]
    dsimp only
    rw [hjoin]
    dsimp only
    unfold sendErrorToPlayer
    rw [hc]
    rfl

/-- Witness for C4: the capacity bound at the reachable two-member state sD,
and the failing join of Q3 against the full room rF. -/
theorem C4_witness :
    roomR1_sD.players.length ≤ roomR1_sD.maxPlayers ∧
    joinRoom sFull "Q3" "rF" = .err sFull "room is full" ∧
    SimpleSrv.handleJoinRoom sFull "Q3" (.obj [("roomId", .str "rF")]) =
      (sFull, sendError 9 "Failed to join room: room is full") :=
  ⟨C4_capacity_invariant.1 sD reachable_sD "r1" roomR1_sD (by decide),
   (C4_capacity_invariant.2 sFull "Q3" "rF" roomFull playerQ3 9
     (.obj [("roomId", .str "rF")]) [("roomId", .str "rF")]
     rfl (by decide) (by decide) (by decide) (by decide) (by decide)).1,
   (C4_capacity_invariant.2 sFull "Q3" "rF" roomFull playerQ3 9
     (.obj [("roomId", .str "rF")]) [("roomId", .str "rF")]
     rfl (by decide) (by decide) (by decide) (by decide) (by decide)).2⟩

/-- Claim C5 is refuted on members without a live connection: in the
reachable state sE, "PB" is still a member of r1 (its connection dropped
without membership removal), is not the excluded id of A's chat broadcast
(empty exclusion), and yet receives nothing — broadcastToRoom skips members
whose connection is nil. -/
theorem C5_counterexample :
    Reachable sE ∧
    (lookupKey "r1" sE.rooms).map (fun r => r.players.contains "PB") = some true ∧
    (lookupKey "PB" sE.players).map Player.connection = some none ∧
    (handleChat sE "PA" (.obj [("message", .str "hi")])).2.all
      (fun snd => snd.pid != "PB") = true :=
  ⟨reachable_sE, by decide, by decide, by decide⟩

/-- Claim C5 as amended: Broadcast delivers the message exactly to the
current members that have a live connection and whose id differs from the
excluded one (empty exclusion delivers to all connected members); a
player_move from A is broadcast with A's new position and A's id excluding
A, so A never receives its own echo. -/
theorem C5_broadcast_excludes_sender :
    (∀ (s : ServerState) (roomID : String) (room : GameRoom) (msg : Message) (ex : String),
      lookupKey roomID s.rooms = some room →
      (∀ snd ∈ broadcastToRoom s roomID msg ex,
        snd.pid ≠ ex ∧ snd.pid ∈ room.players ∧ snd.msg = msg ∧
        ∃ p, lookupKey snd.pid s.players = some p ∧ p.connection = some snd.conn) ∧
      (∀ q ∈ room.players, q ≠ ex → ∀ p pc, lookupKey q s.players = some p →
        p.connection = some pc →
        (⟨q, pc, msg⟩ : Send) ∈ broadcastToRoom s roomID msg ex)) ∧
    (∀ (s : ServerState) (pid roomID : String) (player : Player) (data : JVal)
       (fields : List (String × JVal)) (x y : Int),
      lookupKey pid s.players = some player → player.room = some roomID →
      data.asObj = some fields → getNum fields "x" = some x → getNum fields "y" = some y →
      (handlePlayerMove s pid data).2 =
        broadcastToRoom (handlePlayerMove s pid data).1 roomID
          { type := MsgTypePlayerMove, playerId := pid, roomId := roomID,
            data := .movePos ⟨x, y⟩ } pid ∧
      ∀ snd ∈ (handlePlayerMove s pid data).2,
        snd.pid ≠ pid ∧ snd.msg.playerId = pid ∧ snd.msg.data = .movePos ⟨x, y⟩) := by
  constructor
  · intro s roomID room msg ex hro
    exact ⟨broadcast_sends hro,
      fun q hq hqe p pc hlp hpc => broadcast_delivers hro hq hqe hlp hpc⟩
  · intro s pid roomID player data fields x y hp hr hobj hx hy
    have hred : handlePlayerMove s pid data =
      ({ s with players := insertKey pid { player with position := ⟨x, y⟩ } s.players },
       broadcastToRoom
         { s with players := insertKey pid { player with position := ⟨x, y⟩ } s.players }
         roomID
         { type := MsgTypePlayerMove, playerId := pid, roomId := roomID,
           data := .movePos ⟨x, y⟩ } pid) := by
      unfold handlePlayerMove
      rw [hp]
      dsimp only
      rw [hr]
      dsimp only
      rw [hobj]
      dsimp only
      rw [hx, hy]
    rw [hred]
    refine ⟨rfl, ?_⟩
    intro snd hsnd
    cases hro2 : lookupKey roomID
        ({ s with players := insertKey pid { player with position := ⟨x, y⟩ } s.players} :
          ServerState).rooms with
    | none =>
      unfold broadcastToRoom at hsnd
      rw [hro2] at hsnd
      cases hsnd
    | some room2 =>
      have h := broadcast_sends hro2 snd hsnd
      exact ⟨h.1, by rw [h.2.2.1], by rw [h.2.2.1]⟩

/-- Witness for C5 at the reachable state sD: A's move is delivered to B
(with A's id and the new position) and to nobody else, never back to A. -/
theorem C5_witness :
    ((⟨"PB", 1, { type := MsgTypePlayerMove, playerId := "PA", roomId := "r1",
                  data := .movePos ⟨5, 7⟩ }⟩ : Send) ∈
      (handlePlayerMove sD "PA" (.obj [("x", .num 5), ("y", .num 7)])).2) ∧
    ∀ snd ∈ (handlePlayerMove sD "PA" (.obj [("x", .num 5), ("y", .num 7)])).2,
      snd.pid ≠ "PA" ∧ snd.msg.playerId = "PA" ∧ snd.msg.data = .movePos ⟨5, 7⟩ := by
  have h2 := C5_broadcast_excludes_sender.2 sD "PA" "r1" playerA_sC
    (.obj [("x", .num 5), ("y", .num 7)]) [("x", .num 5), ("y", .num 7)] 5 7
    (by decide) (by decide) rfl (by decide) (by decide)
  constructor
  · rw [h2.1]
    exact (C5_broadcast_excludes_sender.1
        (handlePlayerMove sD "PA" (.obj [("x", .num 5), ("y", .num 7)])).1 "r1" roomR1_sD
        { type := MsgTypePlayerMove, playerId := "PA", roomId := "r1",
          data := .movePos ⟨5, 7⟩ } "PA" (by decide)).2
      "PB" (by decide) (by decide) playerB_sD 1 (by decide) (by decide)
  · exact h2.2

/-- Claim C6: a leave that empties a room removes the room from the
registry synchronously, and a later getOrCreateRoom under the same
identifier builds a fresh room — empty membership, capacity 10, and the
freshly generated default Game State: status "waiting", the default spawn
points, and the tutorial welcome_task present with status "available". -/
theorem C6_empty_room_destroyed_fresh_recreate :
    (∀ (s : ServerState) (pid roomID : String) (player : Player) (room : GameRoom),
      lookupKey pid s.players = some player →
      player.room = some roomID →
      lookupKey roomID s.rooms = some room →
      room.players = [pid] →
      lookupKey roomID (handleLeaveRoom s pid).1.rooms = none) ∧
    (∀ (s : ServerState) (roomID gameID : String),
      lookupKey roomID s.rooms = none →
      ∃ room2, SimpleSrv.getOrCreateRoom s roomID gameID =
          ({ s with rooms := insertKey roomID room2 s.rooms }, room2) ∧
        room2.players = [] ∧ room2.maxPlayers = 10 ∧
        room2.gameState = SimpleSrv.createDefaultGameState) ∧
    SimpleSrv.createDefaultGameState.status = "waiting" ∧
    SimpleSrv.createDefaultGameState.map.spawnPoints =
      [⟨100, 100⟩, ⟨200, 200⟩, ⟨300, 300⟩] ∧
    SimpleSrv.createDefaultGameState.tasks = [welcomeTask] ∧
    welcomeTask.status = "available" := by
  refine ⟨?_, ?_, rfl, rfl, rfl, rfl⟩
  · intro s pid roomID player room hp hr hro hm
    unfold handleLeaveRoom
    rw [hp]
    dsimp only
    rw [hr]
    dsimp only
    unfold leaveRoom
    rw [hp]
    dsimp only
    rw [hr]
    dsimp only
    rw [hro]
    dsimp only
    rw [hm]
    have hrm : removeMember pid [pid] = [] := by simp [removeMember]
    rw [hrm]
    rw [if_pos (show (List.length ([] : List String)) = 0 from rfl)]
    exact lookupKey_eraseKey_self _ _
  · intro s roomID gameID h
    unfold SimpleSrv.getOrCreateRoom
    rw [h]
    exact ⟨_, rfl, rfl, rfl, rfl⟩

/-- Witness for C6 at the reachable state sC (A is the sole member of r1):
leaving destroys r1, and the recreated r1 is fresh. -/
theorem C6_witness :
    lookupKey "r1" (handleLeaveRoom sC "PA").1.rooms = none ∧
    ∃ room2, SimpleSrv.getOrCreateRoom (handleLeaveRoom sC "PA").1 "r1" "default" =
        ({ (handleLeaveRoom sC "PA").1 with
            rooms := insertKey "r1" room2 (handleLeaveRoom sC "PA").1.rooms }, room2) ∧
      room2.players = [] ∧ room2.maxPlayers = 10 ∧
      room2.gameState = SimpleSrv.createDefaultGameState := by
  have h1 := C6_empty_room_destroyed_fresh_recreate.1 sC "PA" "r1" playerA_sC roomR1_sC
    (by decide) (by decide) (by decide) (by decide)
  exact ⟨h1, C6_empty_room_destroyed_fresh_recreate.2.1 (handleLeaveRoom sC "PA").1 "r1"
    "default" h1⟩

/-- Claim C7: a successful join assigns the joiner the spawn point indexed
by the post-insertion membership count modulo the spawn-list length — the
first joiner of a fresh room (membership count one after joining) gets
spawn index 1, the next index 2, wrapping around. -/
theorem C7_spawn_cycling :
    ∀ (s : ServerState) (pid roomID : String) (room : GameRoom) (player : Player),
      lookupKey roomID s.rooms = some room →
      lookupKey pid s.players = some player →
      player.room ≠ some roomID →
      room.players.length < room.maxPlayers →
      0 < room.gameState.map.spawnPoints.length →
      ∃ s2, joinRoom s pid roomID = .ok s2 ∧
        ∃ room2 player2, lookupKey roomID s2.rooms = some room2 ∧
          lookupKey pid s2.players = some player2 ∧
          room2.players = addMember pid room.players ∧
          room2.gameState = room.gameState ∧
          player2.position = room.gameState.map.spawnPoints.getD
            (room2.players.length % room.gameState.map.spawnPoints.length) ⟨0, 0⟩ ∧
          (pid ∉ room.players → room2.players.length = room.players.length + 1) := by
  intro s pid roomID room player hro hp hne hcap hsp
  unfold joinRoom
  rw [hro, hp]
  dsimp only
  rw [if_neg (Nat.not_le.mpr hcap), if_neg hne]
  cases hpr : player.room with
  | none =>
    dsimp only [Option.isSome]
    rw [if_neg (by simp)]
    rw [hro, hp]
    dsimp only
    rw [if_pos hsp]
    refine ⟨_, rfl, _, _, lookupKey_insertKey_self _ _ _, lookupKey_insertKey_self _ _ _,
      rfl, rfl, rfl, ?_⟩
    intro hnm
    exact addMember_length_not_mem hnm
  | some old =>
    have hne2 : ({ player with room := some old } : Player).room ≠ some roomID := hpr ▸ hne
    dsimp only [Option.isSome]
    rw [if_pos (by simp)]
    have hro1 : lookupKey roomID (leaveRoom s pid).rooms = some room := by
      rw [leaveRoom_lookup_rooms_ne hp (hpr ▸ hne)]
      exact hro
    rw [hro1, leaveRoom_lookup_self hp]
    dsimp only
    rw [if_pos hsp]
    refine ⟨_, rfl, _, _, lookupKey_insertKey_self _ _ _, lookupKey_insertKey_self _ _ _,
      rfl, rfl, rfl, ?_⟩
    intro hnm
    exact addMember_length_not_mem hnm

/-- Witness for C7: the first joiner of the fresh room r1 (A, joining from
the reachable state sB) is assigned spawn index 1 — position (200, 200). -/
theorem C7_witness :
    (∃ s2, joinRoom (SimpleSrv.getOrCreateRoom sB "r1" "default").1 "PA" "r1" = .ok s2 ∧
      ∃ room2 player2, lookupKey "r1" s2.rooms = some room2 ∧
        lookupKey "PA" s2.players = some player2 ∧
        room2.players = addMember "PA" ([] : List String) ∧
        room2.gameState = SimpleSrv.createDefaultGameState ∧
        player2.position = SimpleSrv.createDefaultGameState.map.spawnPoints.getD
          (room2.players.length % SimpleSrv.createDefaultGameState.map.spawnPoints.length)
          ⟨0, 0⟩ ∧
        ("PA" ∉ ([] : List String) → room2.players.length = ([] : List String).length + 1)) ∧
    (lookupKey "PA" sC.players).map Player.position = some ⟨200, 200⟩ := by
  constructor
  · exact C7_spawn_cycling (SimpleSrv.getOrCreateRoom sB "r1" "default").1 "PA" "r1"
      { id := "r1", name := "Room r1", gameId := "default", maxPlayers := 10, players := [],
        gameState := SimpleSrv.createDefaultGameState }
      playerA_sB (by decide) (by decide) (by decide) (by decide) (by decide)
  · decide

/-- Claim C8 is refuted: in the reachable state sD the in-room player A
sends a player_move whose data lacks the numeric y field; the server sends
nothing at all — in particular no error envelope — the message is silently
ignored with the state unchanged. -/
theorem C8_counterexample :
    Reachable sD ∧
    (lookupKey "PA" sD.players).map Player.room = some (some "r1") ∧
    handlePlayerMove sD "PA" (.obj [("x", .num 5)]) = (sD, []) :=
  ⟨reachable_sD, by decide, by decide⟩

/-- Claim C8 as amended: malformed data for the in-room message kinds
player_move, chat and player_action is silently ignored — the state is
unchanged and nothing at all is sent (in particular no error envelope);
the connection is not terminated (the dispatcher loop only ends on a read
failure). Error envelopes for bad payloads exist only on the auth and
join_room paths. -/
theorem C8_malformed_silently_ignored :
    (∀ (s : ServerState) (pid : String) (data : JVal) (fields : List (String × JVal)),
      data.asObj = some fields →
      (getNum fields "x" = none ∨ getNum fields "y" = none) →
      handlePlayerMove s pid data = (s, [])) ∧
    (∀ (s : ServerState) (pid : String) (data : JVal) (fields : List (String × JVal)),
      data.asObj = some fields → getStr fields "message" = none →
      handleChat s pid data = (s, [])) ∧
    (∀ (s : ServerState) (pid : String) (data : JVal) (fields : List (String × JVal))
       (issue : Except String Credential),
      data.asObj = some fields → getStr fields "action" = none →
      SimpleSrv.handlePlayerAction s pid data issue = (s, [], [])) ∧
    (∀ (s : ServerState) (pid : String) (data : JVal),
      data.asObj = none →
      handlePlayerMove s pid data = (s, []) ∧ handleChat s pid data = (s, []) ∧
      ∀ issue, SimpleSrv.handlePlayerAction s pid data issue = (s, [], [])) := by
  refine ⟨?_, ?_, ?_, ?_⟩
  · intro s pid data fields hobj hxy
    unfold handlePlayerMove
    cases hp : lookupKey pid s.players with
    | none => rfl
    | some player =>
      dsimp only
      cases hr : player.room with
      | none => rfl
      | some roomID =>
        dsimp only
        rw [hobj]
        dsimp only
        cases hxy with
        | inl hx => rw [hx]
        | inr hy =>
          cases hx2 : getNum fields "x" with
          | none => rfl
          | some x => rw [hy]
  · intro s pid data fields hobj hmsg
    unfold handleChat
    cases hp : lookupKey pid s.players with
    | none => rfl
    | some player =>
      dsimp only
      cases hr : player.room with
      | none => rfl
      | some roomID =>
        dsimp only
        rw [hobj]
        dsimp only
        rw [hmsg]
  · intro s pid data fields issue hobj hact
    unfold SimpleSrv.handlePlayerAction
    cases hp : lookupKey pid s.players with
    | none => rfl
    | some player =>
      dsimp only
      cases hr : player.room with
      | none => rfl
      | some roomID =>
        dsimp only
        rw [hobj]
        dsimp only
        rw [hact]
  · intro s pid data hobj
    refine ⟨?_, ?_, ?_⟩
    · unfold handlePlayerMove
      cases hp : lookupKey pid s.players with
      | none => rfl
      | some player =>
        dsimp only
        cases hr : player.room with
        | none => rfl
        | some roomID =>
          dsimp only
          rw [hobj]
    · unfold handleChat
      cases hp : lookupKey pid s.players with
      | none => rfl
      | some player =>
        dsimp only
        cases hr : player.room with
        | none => rfl
        | some roomID =>
          dsimp only
          rw [hobj]
    · intro issue
      unfold SimpleSrv.handlePlayerAction
      cases hp : lookupKey pid s.players with
      | none => rfl
      | some player =>
        dsimp only
        cases hr : player.room with
        | none => rfl
        | some roomID =>
          dsimp only
          rw [hobj]

/-- Witness for C8's amended theorem at the reachable state sD. -/
theorem C8_witness :
    handlePlayerMove sD "PA" (.obj [("x", .num 5), ("y", .str "oops")]) = (sD, []) ∧
    handleChat sD "PA" (.obj [("text", .str "hi")]) = (sD, []) ∧
    SimpleSrv.handlePlayerAction sD "PA" (.obj [("verb", .str "jump")]) (.error "e") =
      (sD, [], []) ∧
    handleChat sD "PA" (.str "not an object") = (sD, []) :=
  ⟨C8_malformed_silently_ignored.1 sD "PA" (.obj [("x", .num 5), ("y", .str "oops")])
     [("x", .num 5), ("y", .str "oops")] rfl (Or.inr (by decide)),
   C8_malformed_silently_ignored.2.1 sD "PA" (.obj [("text", .str "hi")])
     [("text", .str "hi")] rfl (by decide),
   C8_malformed_silently_ignored.2.2.1 sD "PA" (.obj [("verb", .str "jump")])
     [("verb", .str "jump")] (.error "e") rfl (by decide),
   (C8_malformed_silently_ignored.2.2.2 sD "PA" (.str "not an object") rfl).2.1⟩

/-- Claim C9: in every reachable state every task of every registered room
is still "available" — no operation ever sets a task to "active" — and
therefore a complete_task request (either server's handler) on such a
state is a complete no-op: unchanged state, no messages, no reward
issuance. -/
theorem C9_tasks_never_active :
    ∀ s, Reachable s →
      (∀ rid room, lookupKey rid s.rooms = some room →
        ∀ t ∈ room.gameState.tasks, t.status = "available") ∧
      (∀ (pid : String) (fields : List (String × JVal)) (issue : Except String Credential),
        SimpleSrv.handleCompleteTask s pid fields issue = (s, [], [])) ∧
      (∀ (pid : String) (fields : List (String × JVal))
         (issue2 : String → String → Except String Credential),
        Srv.handleCompleteTask s pid fields issue2 = (s, [], [])) := by
  intro s h
  have hinv := reachable_inv h
  exact ⟨fun rid room hr => (hinv rid room hr).2,
    fun _ _ _ => simple_completeTask_of_inv hinv,
    fun _ _ _ => srv_completeTask_of_inv hinv⟩

/-- Witness for C9 at the reachable state sD. -/
theorem C9_witness :
    (∀ t ∈ roomR1_sD.gameState.tasks, t.status = "available") ∧
    SimpleSrv.handleCompleteTask sD "PB" [("taskId", .str "welcome_task")] (.error "x") =
      (sD, [], []) :=
  ⟨fun t ht => (C9_tasks_never_active sD reachable_sD).1 "r1" roomR1_sD (by decide) t ht,
   (C9_tasks_never_active sD reachable_sD).2.1 "PB" [("taskId", .str "welcome_task")]
     (.error "x")⟩

/-- Claim C10: for an auth whose DID resolves, a new player's nickname is
the last 8 characters of the DID appended to "Player_"; a resolved DID
shorter than 8 characters makes the nickname slice panic — modelled as
handleAuth returning none — instead of producing an error envelope. -/
theorem C10_nickname_slice_panics_on_short_did :
    ∀ (s : ServerState) (did freshId docId : String) (conn : ConnId) (data : JVal)
      (fields : List (String × JVal)) (resolve : String → Except String String),
      findByDID did s.players = none →
      data.asObj = some fields →
      getStr fields "did" = some did →
      resolve did = .ok docId →
      (8 ≤ did.length →
        ∃ s2 player sends,
          handleAuth s conn data resolve freshId = some (s2, some player, sends) ∧
          player.nickname = "Player_" ++ did.drop (did.length - 8)) ∧
      (did.length < 8 → handleAuth s conn data resolve freshId = none) := by
  intro s did freshId docId conn data fields resolve hfind hobj hdid hres
  unfold handleAuth
  rw [hobj]
  dsimp only
  rw [hdid]
  dsimp only
  rw [hres]
  dsimp only
  unfold getOrCreatePlayer
  rw [hfind]
  dsimp only
  constructor
  · intro hlen
    rw [if_pos hlen]
    dsimp only
    exact ⟨_, _, _, rfl, rfl⟩
  · intro hlen
    rw [if_neg (by omega)]

/-- Witness for C10: the 17-character DID of the trace yields nickname
Player_aaaa0001 (visible in the reachable state sA), while a 5-character
DID that resolves makes handleAuth panic. -/
theorem C10_witness :
    (∃ s2 player sends,
      handleAuth s0 0 (.obj [("did", .str "did:game:aaaa0001")]) exResolve "PA" =
        some (s2, some player, sends) ∧
      player.nickname =
        "Player_" ++ ("did:game:aaaa0001").drop (("did:game:aaaa0001").length - 8)) ∧
    handleAuth s0 7 (.obj [("did", .str "did:a")]) exResolve "PX" = none ∧
    (lookupKey "PA" sA.players).map Player.nickname = some "Player_aaaa0001" :=
  ⟨(C10_nickname_slice_panics_on_short_did s0 "did:game:aaaa0001" "PA" "did:game:aaaa0001" 0
      (.obj [("did", .str "did:game:aaaa0001")]) [("did", .str "did:game:aaaa0001")]
      exResolve (by decide) rfl rfl rfl).1 (by decide),
   (C10_nickname_slice_panics_on_short_did s0 "did:a" "PX" "did:a" 7
      (.obj [("did", .str "did:a")]) [("did", .str "did:a")]
      exResolve (by decide) rfl rfl rfl).2 (by decide),
   by decide⟩

end Game
